import Mathlib

/-!
Shallow embedding of the `CanvasOverviewRenderer` component of the
obsidian canvas-overview plugin (source file `CanvasOverviewRenderer.ts`),
together with theorems settling the specification claims about it.

Coordinates are modelled as rationals.  JavaScript division of a positive
numerator by zero yields `+Infinity`, which is absorbed by `Math.min`
against finite arguments; where this matters (the base-scale computation,
whose numerators `460` and `560` are fixed positive constants) the
embedding models it explicitly with the extended type `XQ`.
-/

/-- Node kinds of the canvas document (`types.ts`: `'text' | 'file' | 'group' | 'link'`). -/
inductive NodeType where
  | text
  | file
  | group
  | link
  deriving BEq, DecidableEq, Repr

/-- A canvas node (`types.ts`: `CanvasNode`): a positioned rectangle with
optional text, file reference and label. -/
structure CanvasNode where
  id : String
  type : NodeType
  x : ℚ
  y : ℚ
  width : ℚ
  height : ℚ
  text : Option String := none
  file : Option String := none
  label : Option String := none
  deriving DecidableEq, Repr

/-- A canvas edge (`types.ts`: `CanvasEdge`); the overview renderer ignores edges. -/
structure CanvasEdge where
  id : String
  fromNode : String
  toNode : String
  deriving DecidableEq, Repr

/-- The parsed canvas document (`types.ts`: `CanvasData`). -/
structure CanvasData where
  nodes : List CanvasNode
  edges : List CanvasEdge := []
  deriving DecidableEq, Repr

/-- The derived bounding box (`CanvasOverviewRenderer.bounds`). -/
structure Bounds where
  minX : ℚ
  maxX : ℚ
  minY : ℚ
  maxY : ℚ
  deriving DecidableEq, Repr

/-- Renderer constant `OVERVIEW_WIDTH = 500`. -/
def OVERVIEW_WIDTH : ℚ := 500

/-- Renderer constant `OVERVIEW_HEIGHT = 600`. -/
def OVERVIEW_HEIGHT : ℚ := 600

/-- Renderer constant `PADDING = 20`. -/
def PADDING : ℚ := 20

/-- The mutable state of one `CanvasOverviewRenderer` instance: exactly the
fields the transform pipeline reads and writes. -/
structure RendererState where
  canvasData : Option CanvasData := none
  canvasPath : Option String := none
  currentStationId : Option Int := none
  bounds : Bounds := ⟨0, 0, 0, 0⟩
  baseScale : ℚ := 1
  currentZoomScale : ℚ := 1
  panX : ℚ := 0
  panY : ℚ := 0
  deriving DecidableEq, Repr

/-- The field initializers of the class: a freshly constructed renderer. -/
def initialState : RendererState := {}

/-- Rationals extended with a positive infinity, to model the value of a
JavaScript division of a positive constant by zero. -/
inductive XQ where
  | fin (q : ℚ)
  | posInf
  deriving DecidableEq, Repr

/-- `Math.min` on extended rationals: `+Infinity` is absorbed. -/
def XQ.minx : XQ → XQ → XQ
  | XQ.fin a, XQ.fin b => XQ.fin (min a b)
  | XQ.fin a, XQ.posInf => XQ.fin a
  | XQ.posInf, XQ.fin b => XQ.fin b
  | XQ.posInf, XQ.posInf => XQ.posInf

/-- JavaScript division `a / w` for a positive numerator `a`: yields
`+Infinity` when `w = 0`, the exact rational quotient otherwise. -/
def jsDivPos (a w : ℚ) : XQ :=
  if w = 0 then XQ.posInf else XQ.fin (a / w)

/-- `calculateBounds` on a node list (`CanvasOverviewRenderer.calculateBounds`):
the empty list yields the fixed placeholder box `{0,100,0,100}`; otherwise
`Math.min`/`Math.max` over the node coordinates. -/
def calculateBounds (nodes : List CanvasNode) : Bounds :=
  match nodes with
  | [] => ⟨0, 100, 0, 100⟩
  | n :: ns =>
    { minX := (ns.map (fun m => m.x)).foldr min n.x
      maxX := (ns.map (fun m => m.x + m.width)).foldr max (n.x + n.width)
      minY := (ns.map (fun m => m.y)).foldr min n.y
      maxY := (ns.map (fun m => m.y + m.height)).foldr max (n.y + n.height) }

/-- `calculateScale` (`CanvasOverviewRenderer.calculateScale`):
`baseScale = Math.min(scaleX, scaleY, 1)` with
`scaleX = (OVERVIEW_WIDTH - 2*PADDING) / canvasWidth` and
`scaleY = (OVERVIEW_HEIGHT - 2*PADDING) / canvasHeight`.  The source has no
zero guard: a zero span makes the JavaScript quotient `+Infinity`, which
`Math.min` absorbs against the finite argument `1`; `jsDivPos` models this. -/
def calculateScale (b : Bounds) : ℚ :=
  let canvasWidth := b.maxX - b.minX
  let canvasHeight := b.maxY - b.minY
  let scaleX := jsDivPos (OVERVIEW_WIDTH - 2 * PADDING) canvasWidth
  let scaleY := jsDivPos (OVERVIEW_HEIGHT - 2 * PADDING) canvasHeight
  match XQ.minx (XQ.minx scaleX scaleY) (XQ.fin 1) with
  | XQ.fin q => q
  | XQ.posInf => 1

/-- Effective scale (`CanvasOverviewRenderer.getEffectiveScale`):
`baseScale * currentZoomScale`. -/
def effectiveScale (s : RendererState) : ℚ :=
  s.baseScale * s.currentZoomScale

/-- Containment test (`CanvasOverviewRenderer.isNodeInGroup`): the node's
rectangle lies entirely within the group's rectangle. -/
def isNodeInGroup (node g : CanvasNode) : Bool :=
  decide (node.x ≥ g.x) && decide (node.y ≥ g.y) &&
  decide (node.x + node.width ≤ g.x + g.width) &&
  decide (node.y + node.height ≤ g.y + g.height)

/-- The group-kind nodes of the document that geometrically contain `node`
(the two `filter` steps of `findContainingGroup`). -/
def containingGroupsOf (nodes : List CanvasNode) (node : CanvasNode) : List CanvasNode :=
  ((nodes.filter (fun n => n.type == NodeType.group)).filter (fun g => isNodeInGroup node g))

/-- JavaScript string interpolation of an optional string: an absent field
prints as the literal text undefined. -/
def jsShowOptText : Option String → String
  | some s => s
  | none => "undefined"

/-- The expression `g.label || g.id` of the error message: the label unless
it is absent or empty (both falsy in JavaScript), else the id. -/
def labelOrId (g : CanvasNode) : String :=
  match g.label with
  | some l => if l = "" then g.id else l
  | none => g.id

/-- The message of the multiplicity error thrown by `findContainingGroup`. -/
def multiGroupMsg (node : CanvasNode) (cgs : List CanvasNode) : String :=
  "Station " ++ jsShowOptText node.text ++ " belongs to multiple groups: " ++
    String.intercalate ", " (cgs.map labelOrId) ++
    ". Each station must belong to at most one group."

/-- `findContainingGroup` (`CanvasOverviewRenderer.findContainingGroup`):
filter the group-kind nodes containing `node`; throw when more than one,
else return the first one or `null`.  A thrown JavaScript error is modelled
as `Except.error` carrying the message. -/
def findContainingGroup (nodes : List CanvasNode) (node : CanvasNode) :
    Except String (Option CanvasNode) :=
  let containingGroups := containingGroupsOf nodes node
  if containingGroups.length > 1 then
    Except.error (multiGroupMsg node containingGroups)
  else
    match containingGroups with
    | [] => Except.ok none
    | g :: _ => Except.ok (some g)

/-- The horizontal size of the scaled canvas in viewport pixels
(`scaledCanvasWidth` of `applyPanBounds`). -/
def scaledCanvasWidth (s : RendererState) : ℚ :=
  (s.bounds.maxX - s.bounds.minX) * effectiveScale s

/-- The vertical size of the scaled canvas in viewport pixels
(`scaledCanvasHeight` of `applyPanBounds`). -/
def scaledCanvasHeight (s : RendererState) : ℚ :=
  (s.bounds.maxY - s.bounds.minY) * effectiveScale s

/-- The padding-trimmed horizontal viewport size (`availableWidth`). -/
def availableWidth : ℚ := OVERVIEW_WIDTH - 2 * PADDING

/-- The padding-trimmed vertical viewport size (`availableHeight`). -/
def availableHeight : ℚ := OVERVIEW_HEIGHT - 2 * PADDING

/-- One axis of `applyPanBounds`: `pan = Math.max(-maxPan, Math.min(0, pan))`
with `maxPan = scaled - avail`, applied only when `scaled > avail`. -/
def clampPan (pan scaled avail : ℚ) : ℚ :=
  if scaled > avail then max (-(scaled - avail)) (min 0 pan) else pan

/-- `applyPanBounds` (`CanvasOverviewRenderer.applyPanBounds`): clamp each
pan axis to `[-(scaledSize - availableSize), 0]`, but only when the scaled
canvas strictly exceeds the available (padding-trimmed) viewport size on
that axis.  The two axes are independent: the source computes both scaled
sizes up front and each clamp reads only its own axis. -/
def applyPanBounds (s : RendererState) : RendererState :=
  { s with panX := clampPan s.panX (scaledCanvasWidth s) availableWidth,
           panY := clampPan s.panY (scaledCanvasHeight s) availableHeight }

/-- `panToGroup` (`CanvasOverviewRenderer.panToGroup`): zoom to fit the
group with a 20% padding factor, never below the base scale, then pan the
group's center to the viewport center and clamp.  Rational division is
total (`q / 0 = 0`); the JavaScript source divides by `group.width * 1.2`,
nonzero for the nondegenerate groups of the data model. -/
def panToGroup (s : RendererState) (g : CanvasNode) : RendererState :=
  let availableWidth := OVERVIEW_WIDTH - 2 * PADDING
  let availableHeight := OVERVIEW_HEIGHT - 2 * PADDING
  let zoomToFitX := availableWidth / (g.width * (6/5))
  let zoomToFitY := availableHeight / (g.height * (6/5))
  let targetZoom := min zoomToFitX zoomToFitY
  let s1 := { s with currentZoomScale := max (targetZoom / s.baseScale) 1 }
  let effScale := effectiveScale s1
  let groupCenterX := (g.x + g.width / 2 - s1.bounds.minX) * effScale
  let groupCenterY := (g.y + g.height / 2 - s1.bounds.minY) * effScale
  let s2 := { s1 with panX := OVERVIEW_WIDTH / 2 - groupCenterX,
                      panY := OVERVIEW_HEIGHT / 2 - groupCenterY }
  applyPanBounds s2

/-- `panToNode` (`CanvasOverviewRenderer.panToNode`): a fixed moderate zoom
`Math.min(3, Math.max(1.5, 1 / baseScale))`, then pan the node's center to
the viewport center and clamp. -/
def panToNode (s : RendererState) (node : CanvasNode) : RendererState :=
  let s1 := { s with currentZoomScale := min 3 (max (3/2) (1 / s.baseScale)) }
  let effScale := effectiveScale s1
  let nodeX := (node.x + node.width / 2 - s1.bounds.minX) * effScale
  let nodeY := (node.y + node.height / 2 - s1.bounds.minY) * effScale
  let s2 := { s1 with panX := OVERVIEW_WIDTH / 2 - nodeX,
                      panY := OVERVIEW_HEIGHT / 2 - nodeY }
  applyPanBounds s2

/-- The predicate of the anchor lookup in `panToStation`:
`node.type === 'text' && node.text === stationId.toString()`. -/
def isAnchorFor (stationId : Int) (n : CanvasNode) : Bool :=
  n.type == NodeType.text && n.text == some (toString stationId)

/-- `panToStation` (`CanvasOverviewRenderer.panToStation`): locate the
anchor node of the station; missing data or anchor is a no-op; otherwise
resolve the containing group (propagating its error) and frame the group
or, if ungrouped, the node. -/
def panToStation (s : RendererState) (stationId : Int) :
    Except String RendererState :=
  match s.canvasData with
  | none => Except.ok s
  | some data =>
    match data.nodes.find? (isAnchorFor stationId) with
    | none => Except.ok s
    | some stationNode =>
      match findContainingGroup data.nodes stationNode with
      | Except.error m => Except.error m
      | Except.ok (some g) => Except.ok (panToGroup s g)
      | Except.ok none => Except.ok (panToNode s stationNode)

/-- `setCurrentStation` (`CanvasOverviewRenderer.setCurrentStation`): record
the station id, then auto-pan.  A thrown multiplicity error leaves the
mutations made before the throw in place (only `currentStationId`), so the
step returns the post-call state together with the surfaced error, if any.
The subsequent `render()` call mutates no transform state. -/
def setCurrentStation (s : RendererState) (stationId : Int) :
    RendererState × Option String :=
  let s1 := { s with currentStationId := some stationId }
  match panToStation s1 stationId with
  | Except.ok s2 => (s2, none)
  | Except.error m => (s1, some m)

/-- `resetZoom` (`CanvasOverviewRenderer.resetZoom`): restore the default
zoom and pan unconditionally. -/
def resetZoom (s : RendererState) : RendererState :=
  { s with currentZoomScale := 1, panX := 0, panY := 0 }

/-- The success path of `loadCanvas` (`CanvasOverviewRenderer.loadCanvas`),
with the asynchronous read-and-parse result supplied as `doc`: store the
path and document, recompute bounds and base scale, render.  Note that it
does not touch `currentZoomScale`, `panX` or `panY`. -/
def loadCanvas (s : RendererState) (path : String) (doc : CanvasData) :
    RendererState :=
  let s1 := { s with canvasPath := some path, canvasData := some doc }
  let s2 := { s1 with bounds := calculateBounds doc.nodes }
  { s2 with baseScale := calculateScale s2.bounds }

/-- The predicate of the current-station lookup in `renderGroups`:
JavaScript compares `node.text === this.currentStationId?.toString()`, two
possibly-absent strings (absent on both sides compares equal). -/
def isCurrentAnchor (currentStationId : Option Int) (n : CanvasNode) : Bool :=
  n.type == NodeType.text && n.text == currentStationId.map (fun i => toString i)

/-- One group rectangle as drawn by `renderGroups`: its viewport-space
position, size, label and whether it is tinted as the current group. -/
structure RenderedGroup where
  x : ℚ
  y : ℚ
  width : ℚ
  height : ℚ
  highlighted : Bool
  label : Option String
  deriving DecidableEq, Repr

/-- The `groups.forEach` loop body of `renderGroups`: every group-kind node
drawn in document order, tinted iff its id equals the current group's id. -/
def drawGroups (s : RendererState) (nodes : List CanvasNode)
    (currentGroup : Option CanvasNode) : List RenderedGroup :=
  (nodes.filter (fun n => n.type == NodeType.group)).map (fun g =>
    { x := g.x - s.bounds.minX
      y := g.y - s.bounds.minY
      width := g.width
      height := g.height
      highlighted := match currentGroup with
        | some cg => cg.id == g.id
        | none => false
      label := g.label })

/-- `renderGroups` (`CanvasOverviewRenderer.renderGroups`): look up the
current station's anchor node, resolve its containing group — with no
handler around the call, so a multiplicity error propagates and nothing is
drawn — then draw every group. -/
def renderGroups (s : RendererState) : Except String (List RenderedGroup) :=
  match s.canvasData with
  | none => Except.ok []
  | some data =>
    match data.nodes.find? (isCurrentAnchor s.currentStationId) with
    | some stationNode =>
      (findContainingGroup data.nodes stationNode).map
        (fun currentGroup => drawGroups s data.nodes currentGroup)
    | none => Except.ok (drawGroups s data.nodes none)

/-- A group labelled Room A, as in the end-to-end scenario of the spec. -/
def roomA : CanvasNode :=
  { id := "g1", type := NodeType.group, x := 0, y := 0, width := 400, height := 300,
    label := some "Room A" }

/-- A second, overlapping, unlabelled group. -/
def roomB : CanvasNode :=
  { id := "g2", type := NodeType.group, x := 0, y := 0, width := 200, height := 200 }

/-- The anchor node of station 7, contained in both groups above. -/
def anchor7 : CanvasNode :=
  { id := "n7", type := NodeType.text, x := 50, y := 50, width := 40, height := 40,
    text := some "7" }

/-- A document whose station-7 anchor is contained in two groups. -/
def conflictDoc : CanvasData := { nodes := [roomA, roomB, anchor7] }

/-- The message of the multiplicity error for `conflictDoc`. -/
def conflictMsg : String :=
  "Station 7 belongs to multiple groups: Room A, g2. Each station must belong to at most one group."

/-- The literal value of the state after loading `conflictDoc`. -/
def conflictLoaded : RendererState :=
  { canvasData := some conflictDoc, canvasPath := some "palace.canvas",
    currentStationId := none, bounds := ⟨0, 400, 0, 300⟩, baseScale := 1,
    currentZoomScale := 1, panX := 0, panY := 0 }

/-- The base-scale computation as the spec words it: each span guarded
against zero by substituting the placeholder box's 100-unit span, and the
result `min(scaleX, scaleY, 1)` computed with total rational division. -/
def calculateScaleGuarded (b : Bounds) : ℚ :=
  let w0 := b.maxX - b.minX
  let h0 := b.maxY - b.minY
  let w := if w0 = 0 then 100 else w0
  let h := if h0 = 0 then 100 else h0
  min (min ((OVERVIEW_WIDTH - 2 * PADDING) / w) ((OVERVIEW_HEIGHT - 2 * PADDING) / h)) 1

/-- The renderer state after loading `conflictDoc` and recording station 7
as current (the state in which `render` runs). -/
def conflictHighlighted : RendererState :=
  { conflictLoaded with currentStationId := some 7 }

/-- The anchor node of station 7 in the boundary document: ungrouped, at the
origin. -/
def anchor7b : CanvasNode :=
  { id := "n7b", type := NodeType.text, x := 0, y := 0, width := 40, height := 40,
    text := some "7" }

/-- A scaffolding text node (not an anchor: its text is not decimal) that
stretches the bounds to a 460-by-840 box. -/
def fillerNode : CanvasNode :=
  { id := "fill", type := NodeType.text, x := 420, y := 0, width := 40, height := 840,
    text := some "A" }

/-- A groupless document whose scaled width after node framing lands exactly
on the available viewport width. -/
def boundaryDoc : CanvasData := { nodes := [anchor7b, fillerNode] }

/-- The literal value of the state after loading `boundaryDoc`:
bounds 460 by 840, base scale `min(460/460, 560/840, 1) = 2/3`. -/
def boundaryLoaded : RendererState :=
  { canvasData := some boundaryDoc, canvasPath := some "palace.canvas",
    currentStationId := none, bounds := ⟨0, 460, 0, 840⟩, baseScale := 2/3,
    currentZoomScale := 1, panX := 0, panY := 0 }

/-- The literal state after highlighting station 7 on `boundaryLoaded`:
node framing with zoom `3/2`, effective scale `1`, pan `(230, 0)` after
clamping only the vertical axis. -/
def boundaryFramed : RendererState :=
  { canvasData := some boundaryDoc, canvasPath := some "palace.canvas",
    currentStationId := some 7, bounds := ⟨0, 460, 0, 840⟩, baseScale := 2/3,
    currentZoomScale := 3/2, panX := 230, panY := 0 }

/-- A value is the minimum of a list: it occurs in it and bounds it below. -/
def isLeastOf (v : ℚ) (l : List ℚ) : Prop := v ∈ l ∧ ∀ q ∈ l, v ≤ q

/-- A value is the maximum of a list: it occurs in it and bounds it above. -/
def isGreatestOf (v : ℚ) (l : List ℚ) : Prop := v ∈ l ∧ ∀ q ∈ l, q ≤ v

/-- The states an overview instance can be in: freshly constructed, or the
result of a document load, a highlight-target change, or an explicit reset
applied to a reachable state. -/
inductive Reachable : RendererState → Prop where
  | init : Reachable initialState
  | load (s : RendererState) (path : String) (doc : CanvasData) :
      Reachable s → Reachable (loadCanvas s path doc)
  | highlight (s : RendererState) (stationId : Int) :
      Reachable s → Reachable (setCurrentStation s stationId).1
  | reset (s : RendererState) :
      Reachable s → Reachable (resetZoom s)


/-- Evaluation: both groups of `conflictDoc` contain the station-7 anchor. -/
theorem containingGroupsOf_conflict : containingGroupsOf conflictDoc.nodes anchor7 = [roomA, roomB] := by
  norm_num [containingGroupsOf, conflictDoc, List.filter, isNodeInGroup, roomA, roomB, anchor7]

/-- Evaluation: group resolution on `conflictDoc` throws the multiplicity error. -/
theorem findContainingGroup_conflict :
    findContainingGroup conflictDoc.nodes anchor7 = Except.error conflictMsg := by
  rw [findContainingGroup, containingGroupsOf_conflict]
  norm_num [multiGroupMsg, jsShowOptText, labelOrId, conflictMsg, roomA, roomB, anchor7]
  decide

/-- Evaluation: loading `conflictDoc` yields `conflictLoaded`. -/
theorem loadCanvas_conflict :
    loadCanvas initialState "palace.canvas" conflictDoc = conflictLoaded := by
  norm_num [loadCanvas, initialState, conflictLoaded, calculateBounds, calculateScale,
    jsDivPos, XQ.minx, OVERVIEW_WIDTH, OVERVIEW_HEIGHT, PADDING, conflictDoc,
    roomA, roomB, anchor7]

/-- Evaluation: the anchor lookup of `panToStation` on `conflictDoc` finds the
station-7 anchor. -/
theorem find_anchor_conflict :
    conflictDoc.nodes.find? (isAnchorFor 7) = some anchor7 := by
  norm_num [conflictDoc, List.find?, isAnchorFor, roomA, roomB, anchor7,
    show toString (7:Int) = "7" from rfl]
  decide

/-- Evaluation: highlighting station 7 on the loaded `conflictDoc` surfaces the
multiplicity error and leaves the transform untouched. -/
theorem setCurrentStation_conflict :
    setCurrentStation conflictLoaded 7 =
      ({ conflictLoaded with currentStationId := some 7 }, some conflictMsg) := by
  simp only [setCurrentStation, panToStation, conflictLoaded, find_anchor_conflict,
    findContainingGroup_conflict]

/-- Evaluation: loading `boundaryDoc` yields `boundaryLoaded`. -/
theorem loadCanvas_boundary :
    loadCanvas initialState "palace.canvas" boundaryDoc = boundaryLoaded := by
  norm_num [loadCanvas, initialState, boundaryLoaded, calculateBounds, calculateScale,
    jsDivPos, XQ.minx, OVERVIEW_WIDTH, OVERVIEW_HEIGHT, PADDING, boundaryDoc,
    anchor7b, fillerNode]

/-- Evaluation: the anchor lookup on `boundaryDoc` finds the station-7 anchor. -/
theorem find_anchor_boundary :
    boundaryDoc.nodes.find? (isAnchorFor 7) = some anchor7b := by
  norm_num [boundaryDoc, List.find?, isAnchorFor, anchor7b, fillerNode,
    show toString (7:Int) = "7" from rfl]
  decide

/-- Evaluation: `boundaryDoc` has no groups, so the station-7 anchor is
ungrouped. -/
theorem findContainingGroup_boundary :
    findContainingGroup boundaryDoc.nodes anchor7b = Except.ok none := by
  norm_num [findContainingGroup, containingGroupsOf, boundaryDoc, List.filter,
    anchor7b, fillerNode]

/-- Evaluation: highlighting station 7 on the loaded `boundaryDoc` succeeds
and produces `boundaryFramed`. -/
theorem setCurrentStation_boundary :
    setCurrentStation boundaryLoaded 7 = (boundaryFramed, none) := by
  simp only [setCurrentStation, panToStation, boundaryLoaded, find_anchor_boundary,
    findContainingGroup_boundary]
  norm_num [panToNode, applyPanBounds, clampPan, effectiveScale, scaledCanvasWidth,
    scaledCanvasHeight, availableWidth, availableHeight, OVERVIEW_WIDTH,
    OVERVIEW_HEIGHT, PADDING, anchor7b, boundaryFramed]

theorem foldr_min_isLeast (x : ℚ) (xs : List ℚ) : isLeastOf (xs.foldr min x) (x :: xs) := by
  induction xs with
  | nil => exact ⟨List.mem_singleton.mpr rfl, by intro q hq; simp at hq; simp [hq]⟩
  | cons y ys ih =>
    obtain ⟨hmem, hle⟩ := ih
    constructor
    · rcases le_total y (ys.foldr min x) with h | h
      · simp [List.foldr_cons, min_eq_left h]
      · rw [List.foldr_cons, min_eq_right h]
        rcases List.mem_cons.mp hmem with h1 | h1
        · simp [h1]
        · simp [List.mem_cons, h1]
    · intro q hq
      rw [List.foldr_cons]
      rcases List.mem_cons.mp hq with h1 | h1
      · subst h1
        exact le_trans (min_le_right _ _) (hle q (List.mem_cons_self _ _))
      · rcases List.mem_cons.mp h1 with h2 | h2
        · subst h2
          exact min_le_left _ _
        · exact le_trans (min_le_right _ _) (hle q (List.mem_cons_of_mem _ h2))

theorem foldr_max_isGreatest (x : ℚ) (xs : List ℚ) : isGreatestOf (xs.foldr max x) (x :: xs) := by
  induction xs with
  | nil => exact ⟨List.mem_singleton.mpr rfl, by intro q hq; simp at hq; simp [hq]⟩
  | cons y ys ih =>
    obtain ⟨hmem, hle⟩ := ih
    constructor
    · rcases le_total y (ys.foldr max x) with h | h
      · rw [List.foldr_cons, max_eq_right h]
        rcases List.mem_cons.mp hmem with h1 | h1
        · simp [h1]
        · simp [List.mem_cons, h1]
      · simp [List.foldr_cons, max_eq_left h]
    · intro q hq
      rw [List.foldr_cons]
      rcases List.mem_cons.mp hq with h1 | h1
      · subst h1
        exact le_trans (hle q (List.mem_cons_self _ _)) (le_max_right _ _)
      · rcases List.mem_cons.mp h1 with h2 | h2
        · subst h2
          exact le_max_left _ _
        · exact le_trans (hle q (List.mem_cons_of_mem _ h2)) (le_max_right _ _)

theorem applyPanBounds_preserves (s : RendererState) :
    (applyPanBounds s).canvasData = s.canvasData ∧
    (applyPanBounds s).canvasPath = s.canvasPath ∧
    (applyPanBounds s).currentStationId = s.currentStationId ∧
    (applyPanBounds s).bounds = s.bounds ∧
    (applyPanBounds s).baseScale = s.baseScale ∧
    (applyPanBounds s).currentZoomScale = s.currentZoomScale := by
  simp [applyPanBounds]

theorem panToGroup_preserves (s : RendererState) (g : CanvasNode) :
    (panToGroup s g).canvasData = s.canvasData ∧
    (panToGroup s g).canvasPath = s.canvasPath ∧
    (panToGroup s g).currentStationId = s.currentStationId ∧
    (panToGroup s g).bounds = s.bounds ∧
    (panToGroup s g).baseScale = s.baseScale := by
  simp [panToGroup, applyPanBounds]

theorem panToNode_preserves (s : RendererState) (n : CanvasNode) :
    (panToNode s n).canvasData = s.canvasData ∧
    (panToNode s n).canvasPath = s.canvasPath ∧
    (panToNode s n).currentStationId = s.currentStationId ∧
    (panToNode s n).bounds = s.bounds ∧
    (panToNode s n).baseScale = s.baseScale := by
  simp [panToNode, applyPanBounds]

theorem update_station_self (s : RendererState) (i : Option Int)
    (h : s.currentStationId = i) : { s with currentStationId := i } = s := by
  cases s
  simp_all

theorem panToGroup_congr (s t : RendererState) (g : CanvasNode)
    (h1 : s.canvasData = t.canvasData) (h2 : s.canvasPath = t.canvasPath)
    (h3 : s.currentStationId = t.currentStationId) (h4 : s.bounds = t.bounds)
    (h5 : s.baseScale = t.baseScale) :
    panToGroup s g = panToGroup t g := by
  cases s
  cases t
  simp_all [panToGroup, applyPanBounds, effectiveScale, scaledCanvasWidth,
    scaledCanvasHeight, clampPan]

theorem panToNode_congr (s t : RendererState) (n : CanvasNode)
    (h1 : s.canvasData = t.canvasData) (h2 : s.canvasPath = t.canvasPath)
    (h3 : s.currentStationId = t.currentStationId) (h4 : s.bounds = t.bounds)
    (h5 : s.baseScale = t.baseScale) :
    panToNode s n = panToNode t n := by
  cases s
  cases t
  simp_all [panToNode, applyPanBounds, effectiveScale, scaledCanvasWidth,
    scaledCanvasHeight, clampPan]

theorem setCurrentStation_second (s : RendererState) (stationId : Int) :
    setCurrentStation (setCurrentStation s stationId).1 stationId =
      setCurrentStation s stationId := by
  cases hcd : s.canvasData with
  | none =>
    simp [setCurrentStation, panToStation, hcd]
  | some data =>
    cases hf : data.nodes.find? (isAnchorFor stationId) with
    | none =>
      simp [setCurrentStation, panToStation, hcd, hf]
    | some n =>
      cases hg : findContainingGroup data.nodes n with
      | error m =>
        simp [setCurrentStation, panToStation, hcd, hf, hg]
      | ok og =>
        cases og with
        | none =>
          obtain ⟨p1, p2, p3, p4, p5⟩ := panToNode_preserves
            { s with canvasData := some data, currentStationId := some stationId } n
          have hcongr := panToNode_congr
            (panToNode { s with canvasData := some data, currentStationId := some stationId } n)
            { s with canvasData := some data, currentStationId := some stationId } n
            p1 p2 p3 p4 p5
          have hst := update_station_self
            (panToNode { s with canvasData := some data, currentStationId := some stationId } n)
            (some stationId) p3
          have hres : setCurrentStation s stationId =
              (panToNode { s with canvasData := some data, currentStationId := some stationId } n,
                none) := by
            simp [setCurrentStation, panToStation, hcd, hf, hg]
          rw [hres]
          simp only [setCurrentStation]
          rw [hst]
          simp only [panToStation, p1, hf, hg]
          rw [hcongr]
        | some g =>
          obtain ⟨p1, p2, p3, p4, p5⟩ := panToGroup_preserves
            { s with canvasData := some data, currentStationId := some stationId } g
          have hcongr := panToGroup_congr
            (panToGroup { s with canvasData := some data, currentStationId := some stationId } g)
            { s with canvasData := some data, currentStationId := some stationId } g
            p1 p2 p3 p4 p5
          have hst := update_station_self
            (panToGroup { s with canvasData := some data, currentStationId := some stationId } g)
            (some stationId) p3
          have hres : setCurrentStation s stationId =
              (panToGroup { s with canvasData := some data, currentStationId := some stationId } g,
                none) := by
            simp [setCurrentStation, panToStation, hcd, hf, hg]
          rw [hres]
          simp only [setCurrentStation]
          rw [hst]
          simp only [panToStation, p1, hf, hg]
          rw [hcongr]

theorem panToGroup_zoom (s : RendererState) (g : CanvasNode) :
    (panToGroup s g).currentZoomScale =
      max ((min ((OVERVIEW_WIDTH - 2 * PADDING) / (g.width * (6/5)))
        ((OVERVIEW_HEIGHT - 2 * PADDING) / (g.height * (6/5)))) / s.baseScale) 1 := by
  simp [panToGroup, applyPanBounds]

theorem panToNode_zoom (s : RendererState) (n : CanvasNode) :
    (panToNode s n).currentZoomScale = min 3 (max (3/2) (1 / s.baseScale)) := by
  simp [panToNode, applyPanBounds]

theorem setCurrentStation_zoom_ge_one (s : RendererState) (stationId : Int)
    (h : 1 ≤ s.currentZoomScale) :
    1 ≤ (setCurrentStation s stationId).1.currentZoomScale := by
  cases hcd : s.canvasData with
  | none =>
    simp [setCurrentStation, panToStation, hcd, h]
  | some data =>
    cases hf : data.nodes.find? (isAnchorFor stationId) with
    | none =>
      simp [setCurrentStation, panToStation, hcd, hf, h]
    | some n =>
      cases hg : findContainingGroup data.nodes n with
      | error m =>
        simp [setCurrentStation, panToStation, hcd, hf, hg, h]
      | ok og =>
        cases og with
        | none =>
          simp only [setCurrentStation, panToStation, hcd, hf, hg]
          rw [panToNode_zoom]
          refine le_min (by norm_num) ?_
          exact le_trans (by norm_num) (le_max_left _ _)
        | some g =>
          simp only [setCurrentStation, panToStation, hcd, hf, hg]
          rw [panToGroup_zoom]
          exact le_max_right _ _

theorem calculateScale_eval (b : Bounds) :
    calculateScale b =
      if b.maxX - b.minX = 0 then
        (if b.maxY - b.minY = 0 then 1
         else min ((OVERVIEW_HEIGHT - 2 * PADDING) / (b.maxY - b.minY)) 1)
      else if b.maxY - b.minY = 0 then
        min ((OVERVIEW_WIDTH - 2 * PADDING) / (b.maxX - b.minX)) 1
      else
        min (min ((OVERVIEW_WIDTH - 2 * PADDING) / (b.maxX - b.minX))
          ((OVERVIEW_HEIGHT - 2 * PADDING) / (b.maxY - b.minY))) 1 := by
  by_cases hw : b.maxX - b.minX = 0 <;> by_cases hh : b.maxY - b.minY = 0 <;>
    simp [calculateScale, jsDivPos, hw, hh, XQ.minx]

/-- Claim C3: for every non-empty node collection the computed bounds have
`minX` the minimum of all `node.x`, `maxX` the maximum of all
`node.x + node.width`, and symmetrically `minY`/`maxY`; the empty
collection yields the fixed placeholder box `{0,100,0,100}`. -/
theorem calculateBounds_correct (nodes : List CanvasNode) :
    (nodes = [] → calculateBounds nodes = ⟨0, 100, 0, 100⟩) ∧
    (nodes ≠ [] →
      isLeastOf (calculateBounds nodes).minX (nodes.map (fun n => n.x)) ∧
      isGreatestOf (calculateBounds nodes).maxX (nodes.map (fun n => n.x + n.width)) ∧
      isLeastOf (calculateBounds nodes).minY (nodes.map (fun n => n.y)) ∧
      isGreatestOf (calculateBounds nodes).maxY (nodes.map (fun n => n.y + n.height))) := by
  constructor
  · intro h
    subst h
    rfl
  · intro h
    match nodes with
    | [] => exact absurd rfl h
    | n :: ns =>
      refine ⟨?_, ?_, ?_, ?_⟩ <;> simp only [calculateBounds, List.map_cons]
      · exact foldr_min_isLeast n.x (ns.map (fun m => m.x))
      · exact foldr_max_isGreatest (n.x + n.width) (ns.map (fun m => m.x + m.width))
      · exact foldr_min_isLeast n.y (ns.map (fun m => m.y))
      · exact foldr_max_isGreatest (n.y + n.height) (ns.map (fun m => m.y + m.height))

/-- Claim C3 witness: the bounds of the concrete three-node document attain
and bound its coordinate lists. -/
theorem calculateBounds_correct_witness :
    isLeastOf (calculateBounds conflictDoc.nodes).minX (conflictDoc.nodes.map (fun n => n.x)) ∧
    isGreatestOf (calculateBounds conflictDoc.nodes).maxX
      (conflictDoc.nodes.map (fun n => n.x + n.width)) := by
  obtain ⟨h1, h2, _, _⟩ := (calculateBounds_correct conflictDoc.nodes).2 (by simp [conflictDoc])
  exact ⟨h1, h2⟩

/-- Claim C4: with nonzero spans the base scale equals
`min((W - 2P)/boundsWidth, (H - 2P)/boundsHeight, 1)`; it never exceeds 1;
it is strictly below 1 whenever the bounds are wider or taller than the
padded viewport area; and it equals 1 exactly when the bounds are smaller
on both axes. -/
theorem calculateScale_spec (b : Bounds) :
    (b.maxX - b.minX ≠ 0 → b.maxY - b.minY ≠ 0 →
      calculateScale b =
        min (min ((OVERVIEW_WIDTH - 2 * PADDING) / (b.maxX - b.minX))
          ((OVERVIEW_HEIGHT - 2 * PADDING) / (b.maxY - b.minY))) 1) ∧
    calculateScale b ≤ 1 ∧
    (OVERVIEW_WIDTH - 2 * PADDING < b.maxX - b.minX ∨
        OVERVIEW_HEIGHT - 2 * PADDING < b.maxY - b.minY →
      calculateScale b < 1) ∧
    (0 ≤ b.maxX - b.minX → b.maxX - b.minX < OVERVIEW_WIDTH - 2 * PADDING →
     0 ≤ b.maxY - b.minY → b.maxY - b.minY < OVERVIEW_HEIGHT - 2 * PADDING →
      calculateScale b = 1) := by
  have hW : OVERVIEW_WIDTH - 2 * PADDING = (460 : ℚ) := by
    norm_num [OVERVIEW_WIDTH, PADDING]
  have hH : OVERVIEW_HEIGHT - 2 * PADDING = (560 : ℚ) := by
    norm_num [OVERVIEW_HEIGHT, PADDING]
  rw [calculateScale_eval, hW, hH]
  refine ⟨?_, ?_, ?_, ?_⟩
  · intro hw hh
    simp [hw, hh]
  · by_cases hw : b.maxX - b.minX = 0 <;> by_cases hh : b.maxY - b.minY = 0 <;>
      simp [hw, hh, min_le_right]
  · intro hor
    rcases hor with hx | hy
    · have hwpos : (0:ℚ) < b.maxX - b.minX := by linarith
      have hw : b.maxX - b.minX ≠ 0 := ne_of_gt hwpos
      have hdiv : (460:ℚ) / (b.maxX - b.minX) < 1 := (div_lt_one hwpos).mpr hx
      by_cases hh : b.maxY - b.minY = 0 <;> simp only [hw, hh, if_true, if_false,
        if_neg hw, if_pos hh]
      · exact min_lt_iff.mpr (Or.inl hdiv)
      · exact min_lt_iff.mpr (Or.inl (min_lt_iff.mpr (Or.inl hdiv)))
    · have hhpos : (0:ℚ) < b.maxY - b.minY := by linarith
      have hh : b.maxY - b.minY ≠ 0 := ne_of_gt hhpos
      have hdiv : (560:ℚ) / (b.maxY - b.minY) < 1 := (div_lt_one hhpos).mpr hy
      by_cases hw : b.maxX - b.minX = 0
      · rw [if_pos hw, if_neg hh]
        exact min_lt_iff.mpr (Or.inl hdiv)
      · rw [if_neg hw, if_neg hh]
        exact min_lt_iff.mpr (Or.inl (min_lt_iff.mpr (Or.inr hdiv)))
  · intro h0w hwlt h0h hhlt
    by_cases hw : b.maxX - b.minX = 0 <;> by_cases hh : b.maxY - b.minY = 0
    · rw [if_pos hw, if_pos hh]
    · rw [if_pos hw, if_neg hh]
      have hhpos : (0:ℚ) < b.maxY - b.minY := lt_of_le_of_ne h0h (Ne.symm hh)
      exact min_eq_right ((one_le_div hhpos).mpr (by linarith))
    · rw [if_neg hw, if_pos hh]
      have hwpos : (0:ℚ) < b.maxX - b.minX := lt_of_le_of_ne h0w (Ne.symm hw)
      exact min_eq_right ((one_le_div hwpos).mpr (by linarith))
    · rw [if_neg hw, if_neg hh]
      have hwpos : (0:ℚ) < b.maxX - b.minX := lt_of_le_of_ne h0w (Ne.symm hw)
      have hhpos : (0:ℚ) < b.maxY - b.minY := lt_of_le_of_ne h0h (Ne.symm hh)
      exact min_eq_right (le_min ((one_le_div hwpos).mpr (by linarith))
        ((one_le_div hhpos).mpr (by linarith)))

/-- Claim C4 witness: a 920-wide bounds box is shrunk below 1, a
100-by-100 box rests at exactly 1. -/
theorem calculateScale_spec_witness :
    calculateScale ⟨0, 920, 0, 100⟩ < 1 ∧ calculateScale ⟨0, 100, 0, 100⟩ = 1 := by
  constructor
  · exact (calculateScale_spec ⟨0, 920, 0, 100⟩).2.2.1
      (Or.inl (by norm_num [OVERVIEW_WIDTH, PADDING]))
  · exact (calculateScale_spec ⟨0, 100, 0, 100⟩).2.2.2
      (by norm_num) (by norm_num [OVERVIEW_WIDTH, PADDING])
      (by norm_num) (by norm_num [OVERVIEW_HEIGHT, PADDING])

/-- Claim C5: the base-scale computation behaves exactly as if each zero
span were replaced by the placeholder box's 100-unit span — it is a total
function on all bounds, with no division-by-zero escape value reaching the
result. -/
theorem calculateScale_eq_guarded (b : Bounds) :
    calculateScale b = calculateScaleGuarded b := by
  have hW : OVERVIEW_WIDTH - 2 * PADDING = (460 : ℚ) := by
    norm_num [OVERVIEW_WIDTH, PADDING]
  have hH : OVERVIEW_HEIGHT - 2 * PADDING = (560 : ℚ) := by
    norm_num [OVERVIEW_HEIGHT, PADDING]
  rw [calculateScale_eval]
  unfold calculateScaleGuarded
  by_cases hw : b.maxX - b.minX = 0 <;> by_cases hh : b.maxY - b.minY = 0 <;>
    simp only [hw, hh, if_pos, if_neg, if_true, if_false, hW, hH]
  · norm_num
  · rw [min_assoc,
      min_eq_right (le_trans (min_le_right _ _) (by norm_num : (1:ℚ) ≤ 460 / 100))]
  · rw [min_assoc, min_eq_right (by norm_num : (1:ℚ) ≤ 560 / 100)]

/-- Claim C2: containment is the rectangle-inclusion predicate, and group
resolution returns `null` when no group contains the node, the group when
exactly one does, and fails with the error naming the node's display text
and every offending group's label or id when two or more do. -/
theorem findContainingGroup_cases (nodes : List CanvasNode) (node : CanvasNode) :
    (∀ n g : CanvasNode, isNodeInGroup n g = true ↔
      (n.x ≥ g.x ∧ n.y ≥ g.y ∧ n.x + n.width ≤ g.x + g.width ∧
        n.y + n.height ≤ g.y + g.height)) ∧
    (containingGroupsOf nodes node = [] →
      findContainingGroup nodes node = Except.ok none) ∧
    (∀ g : CanvasNode, containingGroupsOf nodes node = [g] →
      findContainingGroup nodes node = Except.ok (some g)) ∧
    (2 ≤ (containingGroupsOf nodes node).length →
      findContainingGroup nodes node =
        Except.error (multiGroupMsg node (containingGroupsOf nodes node))) := by
  refine ⟨?_, ?_, ?_, ?_⟩
  · intro n g
    simp [isNodeInGroup, and_assoc]
  · intro h
    simp [findContainingGroup, h]
  · intro g h
    simp [findContainingGroup, h]
  · intro h
    have hlen : (containingGroupsOf nodes node).length > 1 := by omega
    simp [findContainingGroup, hlen]

/-- Claim C2 witness: on the concrete two-group document the resolver
throws, and the message names the node text and both group labels/ids. -/
theorem findContainingGroup_cases_witness :
    findContainingGroup conflictDoc.nodes anchor7 = Except.error conflictMsg := by
  have h := (findContainingGroup_cases conflictDoc.nodes anchor7).2.2.2
  rw [containingGroupsOf_conflict] at h
  rw [h (by norm_num)]
  norm_num [multiGroupMsg, jsShowOptText, labelOrId, roomA, roomB, anchor7, conflictMsg]
  decide

/-- Evaluation: the current-anchor lookup of `renderGroups` on `conflictDoc`
with station 7 highlighted finds the station-7 anchor. -/
theorem find_currentAnchor_conflict :
    conflictDoc.nodes.find? (isCurrentAnchor (some 7)) = some anchor7 := by
  norm_num [conflictDoc, List.find?, isCurrentAnchor, roomA, roomB, anchor7,
    show toString (7:Int) = "7" from rfl]
  decide

/-- Claim C1 counterexample: with station 7 highlighted on the two-group
document, `renderGroups` propagates the multiplicity error and draws
nothing — it does not complete with the groups in their default style. -/
theorem renderGroups_conflict_blocked :
    renderGroups conflictHighlighted = Except.error conflictMsg ∧
    renderGroups conflictHighlighted ≠
      Except.ok (drawGroups conflictHighlighted conflictDoc.nodes none) := by
  have h : renderGroups conflictHighlighted = Except.error conflictMsg := by
    simp only [renderGroups, conflictHighlighted, conflictLoaded,
      find_currentAnchor_conflict, findContainingGroup_conflict, Except.map]
  exact ⟨h, by rw [h]; simp⟩

/-- Claim C1 (amended): when the highlighted station's anchor is contained
in two or more groups, the multiplicity error propagates out of
`renderGroups` — which has no handler around the group resolution — so the
draw is blocked and no group is rendered. -/
theorem renderGroups_multiplicity (s : RendererState) (data : CanvasData) (n : CanvasNode)
    (hd : s.canvasData = some data)
    (hn : data.nodes.find? (isCurrentAnchor s.currentStationId) = some n)
    (hm : 2 ≤ (containingGroupsOf data.nodes n).length) :
    renderGroups s = Except.error (multiGroupMsg n (containingGroupsOf data.nodes n)) := by
  have hlen : (containingGroupsOf data.nodes n).length > 1 := by omega
  simp [renderGroups, hd, hn, findContainingGroup, hlen, Except.map]

/-- Claim C1 witness: the amended statement applied to the concrete
two-group document. -/
theorem renderGroups_multiplicity_witness :
    renderGroups conflictHighlighted =
      Except.error (multiGroupMsg anchor7 (containingGroupsOf conflictDoc.nodes anchor7)) := by
  exact renderGroups_multiplicity conflictHighlighted conflictDoc anchor7 rfl
    find_currentAnchor_conflict
    (by rw [containingGroupsOf_conflict]; norm_num)

/-- Claim C6 counterexample: reloading the document on the instance framed
at station 7 keeps the previous zoom `3/2` and pan `230` — the defaults
`1`, `0`, `0` are not restored by a load. -/
theorem loadCanvas_reload_keeps_zoom :
    (loadCanvas (setCurrentStation boundaryLoaded 7).1 "palace.canvas"
      boundaryDoc).currentZoomScale = 3/2 ∧
    (loadCanvas (setCurrentStation boundaryLoaded 7).1 "palace.canvas"
      boundaryDoc).panX = 230 ∧
    ((3:ℚ)/2 ≠ 1) ∧ ((230:ℚ) ≠ 0) := by
  rw [setCurrentStation_boundary]
  norm_num [loadCanvas, boundaryFramed]

/-- Claim C6 (amended): a document load recomputes bounds and base scale
but leaves `currentZoomScale`, `panX` and `panY` untouched, so transform
values set by earlier highlight changes persist across a reload on the same
instance; only a fresh instance (or an explicit reset) carries the defaults
`1`, `0`, `0`. -/
theorem loadCanvas_keeps_transform (s : RendererState) (path : String) (doc : CanvasData) :
    (loadCanvas s path doc).currentZoomScale = s.currentZoomScale ∧
    (loadCanvas s path doc).panX = s.panX ∧
    (loadCanvas s path doc).panY = s.panY ∧
    (resetZoom s).currentZoomScale = 1 ∧ (resetZoom s).panX = 0 ∧ (resetZoom s).panY = 0 ∧
    initialState.currentZoomScale = 1 ∧ initialState.panX = 0 ∧ initialState.panY = 0 := by
  simp [loadCanvas, resetZoom, initialState]

/-- Claim C7 counterexample: after framing station 7 on `boundaryDoc` the
scaled width equals the available width exactly, yet the pan offset is 230,
not 0 — the clamp fires only on strict excess. -/
theorem pan_boundary_nonzero :
    scaledCanvasWidth (setCurrentStation boundaryLoaded 7).1 = availableWidth ∧
    (setCurrentStation boundaryLoaded 7).1.panX = 230 ∧
    (setCurrentStation boundaryLoaded 7).1.panX ≠ 0 := by
  rw [setCurrentStation_boundary]
  norm_num [scaledCanvasWidth, effectiveScale, boundaryFramed, availableWidth,
    OVERVIEW_WIDTH, PADDING]

/-- Claim C7 (amended): after clamping, on each axis where the scaled
canvas strictly exceeds the available viewport size the pan offset lies in
`[-(scaledSize - availableSize), 0]`; on an axis with no strict excess —
the exact boundary case included — the pan is left exactly as computed. -/
theorem applyPanBounds_clamp_spec (s : RendererState) :
    (availableWidth < scaledCanvasWidth s →
      -(scaledCanvasWidth s - availableWidth) ≤ (applyPanBounds s).panX ∧
        (applyPanBounds s).panX ≤ 0) ∧
    (scaledCanvasWidth s ≤ availableWidth → (applyPanBounds s).panX = s.panX) ∧
    (availableHeight < scaledCanvasHeight s →
      -(scaledCanvasHeight s - availableHeight) ≤ (applyPanBounds s).panY ∧
        (applyPanBounds s).panY ≤ 0) ∧
    (scaledCanvasHeight s ≤ availableHeight → (applyPanBounds s).panY = s.panY) := by
  refine ⟨?_, ?_, ?_, ?_⟩
  · intro h
    simp only [applyPanBounds, clampPan, gt_iff_lt, if_pos h]
    constructor
    · exact le_max_left _ _
    · exact max_le (by linarith) (min_le_left _ _)
  · intro h
    simp only [applyPanBounds, clampPan, gt_iff_lt, if_neg (not_lt.mpr h)]
  · intro h
    simp only [applyPanBounds, clampPan, gt_iff_lt, if_pos h]
    constructor
    · exact le_max_left _ _
    · exact max_le (by linarith) (min_le_left _ _)
  · intro h
    simp only [applyPanBounds, clampPan, gt_iff_lt, if_neg (not_lt.mpr h)]

/-- Claim C7 witness: on the framed boundary state the width axis (no
strict excess) keeps its pan and the height axis (strict excess) is
clamped into its interval. -/
theorem applyPanBounds_clamp_spec_witness :
    (applyPanBounds boundaryFramed).panX = boundaryFramed.panX ∧
    -(scaledCanvasHeight boundaryFramed - availableHeight) ≤
      (applyPanBounds boundaryFramed).panY ∧
    (applyPanBounds boundaryFramed).panY ≤ 0 := by
  obtain ⟨c1, c2, c3, c4⟩ := applyPanBounds_clamp_spec boundaryFramed
  have hw : scaledCanvasWidth boundaryFramed ≤ availableWidth := by
    norm_num [scaledCanvasWidth, effectiveScale, boundaryFramed, availableWidth,
      OVERVIEW_WIDTH, PADDING]
  have hh : availableHeight < scaledCanvasHeight boundaryFramed := by
    norm_num [scaledCanvasHeight, effectiveScale, boundaryFramed, availableHeight,
      OVERVIEW_HEIGHT, PADDING]
  exact ⟨c2 hw, (c3 hh).1, (c3 hh).2⟩

/-- Claim C8: when the highlight target's anchor exists and no group
contains it, framing succeeds and sets the zoom multiplier to
`clamp(1/baseScale, 1.5, 3)`, which always lies in `[1.5, 3]` whatever the
base scale. -/
theorem setCurrentStation_node_zoom (s : RendererState) (data : CanvasData)
    (n : CanvasNode) (stationId : Int)
    (hd : s.canvasData = some data)
    (hn : data.nodes.find? (isAnchorFor stationId) = some n)
    (hg : containingGroupsOf data.nodes n = []) :
    (setCurrentStation s stationId).2 = none ∧
    (setCurrentStation s stationId).1.currentZoomScale =
      min 3 (max (3/2) (1 / s.baseScale)) ∧
    3/2 ≤ (setCurrentStation s stationId).1.currentZoomScale ∧
    (setCurrentStation s stationId).1.currentZoomScale ≤ 3 := by
  have hfcg : findContainingGroup data.nodes n = Except.ok none := by
    simp [findContainingGroup, hg]
  have h2 : setCurrentStation s stationId =
      (panToNode { s with currentStationId := some stationId } n, none) := by
    simp [setCurrentStation, panToStation, hd, hn, hfcg]
  rw [h2]
  refine ⟨rfl, ?_, ?_, ?_⟩
  · rw [panToNode_zoom]
  · rw [panToNode_zoom]
    exact le_min (by norm_num) (le_max_left _ _)
  · rw [panToNode_zoom]
    exact min_le_left _ _

/-- Claim C8 witness: framing the ungrouped station 7 of `boundaryDoc`
succeeds with a zoom multiplier inside `[1.5, 3]`. -/
theorem setCurrentStation_node_zoom_witness :
    (setCurrentStation boundaryLoaded 7).2 = none ∧
    3/2 ≤ (setCurrentStation boundaryLoaded 7).1.currentZoomScale ∧
    (setCurrentStation boundaryLoaded 7).1.currentZoomScale ≤ 3 := by
  obtain ⟨w1, _, w3, w4⟩ := setCurrentStation_node_zoom boundaryLoaded boundaryDoc
    anchor7b 7 rfl find_anchor_boundary
    (by norm_num [containingGroupsOf, boundaryDoc, List.filter, anchor7b, fillerNode])
  exact ⟨w1, w3, w4⟩

/-- Claim C9: highlighting the same station twice in a row returns the very
same state and outcome the second time — framing is idempotent and group
resolution mutates nothing. -/
theorem setCurrentStation_idempotent (s : RendererState) (stationId : Int) :
    setCurrentStation (setCurrentStation s stationId).1 stationId =
      setCurrentStation s stationId :=
  setCurrentStation_second s stationId

/-- Claim C10: every reachable state has `currentZoomScale ≥ 1`, so with a
nonnegative base scale the effective scale never drops below the base
scale. -/
theorem zoomMultiplier_invariant (s : RendererState) (h : Reachable s) :
    1 ≤ s.currentZoomScale ∧
    (0 ≤ s.baseScale → s.baseScale ≤ effectiveScale s) := by
  have hz : 1 ≤ s.currentZoomScale := by
    induction h with
    | init => norm_num [initialState]
    | load s' path doc hr ih => simpa [loadCanvas] using ih
    | highlight s' stationId hr ih => exact setCurrentStation_zoom_ge_one s' stationId ih
    | reset s' hr ih => simp [resetZoom]
  exact ⟨hz, fun hb => le_mul_of_one_le_right hb hz⟩

/-- Claim C10 witness: the invariant at the freshly constructed state. -/
theorem zoomMultiplier_invariant_witness :
    1 ≤ initialState.currentZoomScale ∧
    (0 ≤ initialState.baseScale → initialState.baseScale ≤ effectiveScale initialState) :=
  zoomMultiplier_invariant initialState Reachable.init
